import Mathlib

/-!
Shallow embedding of the iFrameResizer library (parent and child agents)
for checking the natural-language specification against the code.

The embedding translates the JavaScript classes in
`src/dist/iframe-resizer-parent.js`, `src/dist/iframe-resizer-child.js`,
`src/unnamed/part_000` and `src/unnamed/part_001` into pure Lean
functions.  Mutable instance state becomes explicit state records,
`window.postMessage` becomes an appended trace of sent messages, and
handler invocation becomes an explicit list of dispatched calls.
Consumer-supplied callbacks are modelled by an identifier plus a flag
saying whether invoking them throws.
-/

namespace IFR

/-- A message payload: a flat record of numeric fields, as produced by the
object literals in the source (`{height, width}`, `{top, left}`, ...). -/
abbrev Payload := List (String × Int)

/-- Field lookup on a payload, modelling JS property access that yields
`undefined` when the field is absent. -/
def Payload.get (p : Payload) (k : String) : Option Int :=
  (p.find? (fun q => q.1 = k)).map (fun q => q.2)

/-- A message posted through the cross-context transport, together with the
target-origin argument given to `postMessage`. -/
structure SentMsg where
  type : String
  payload : Payload
  targetOrigin : String
deriving DecidableEq, Repr

/-- The DOM quantities read by the child agent when a trigger fires. -/
structure Dom where
  bodyScrollHeight : Int
  bodyScrollWidth : Int
  docScrollHeight : Int
  docOffsetHeight : Int
  scrollY : Int
  scrollX : Int
  docScrollTop : Int
  docScrollLeft : Int
deriving DecidableEq, Repr

/-- JS `Map.set` on an association list: replace the entry for an existing
key, otherwise append (insertion order is kept, last registration for a key
wins).  The tables built here always have unique keys, for which this
recursive update coincides with `Map.prototype.set`. -/
def setTab {α : Type} : List (String × α) → String → α → List (String × α)
  | [], t, v => [(t, v)]
  | p :: tl, t, v => if p.1 = t then (t, v) :: tl else p :: setTab tl t v

/-- JS `Map.get`/`Map.has` on an association list. -/
def lookupTab {α : Type} (hs : List (String × α)) (t : String) : Option α :=
  (hs.find? (fun p => p.1 = t)).map (fun p => p.2)

/-- A consumer-supplied callback, identified by a number; `throws` says
whether invoking it raises an exception. -/
structure PHandler where
  id : Nat
  throws : Bool := false
deriving DecidableEq, Repr

/-- An entry of the parent's `customMessageHandlers` map: either the
`ready` closure the constructor registers via `onMessage('ready', ...)`,
or a consumer handler registered later. -/
inductive PEntry
  | builtinReady
  | user (h : PHandler)
deriving DecidableEq, Repr

/-- Parent options as passed to the constructor (absent fields model
omitted keys of the options object). -/
structure ParentOptionsIn where
  targetOrigin : Option String := none
  log : Option Bool := none
  onResize : Option PHandler := none
  onScroll : Option PHandler := none
  initData : Option Payload := none
deriving DecidableEq, Repr

/-- Parent options after the `{...defaultOptions, ...options}` merge. -/
structure ParentOptions where
  targetOrigin : String
  log : Bool
  onResize : Option PHandler
  onScroll : Option PHandler
  initData : Payload
deriving DecidableEq, Repr

/-- Model of `this.options = { ...defaultOptions, ...options }` on the parent,
with defaults `targetOrigin:'*', log:false, onResize:null, onScroll:null,
initData:{}`. -/
def mergeParentOptions (o : ParentOptionsIn) : ParentOptions where
  targetOrigin := o.targetOrigin.getD "*"
  log := o.log.getD false
  onResize := o.onResize
  onScroll := o.onScroll
  initData := o.initData.getD []

/-- State of one parent agent.  `iframeSrc` stands for the identity of
`this.iframe.contentWindow`; `listenerInstalled` records whether the
window `message` listener added in the constructor is still attached. -/
structure ParentState where
  options : ParentOptions
  iframeSrc : Nat
  contentWindowOk : Bool
  handlers : List (String × PEntry)
  isReady : Bool
  readyCallback : Option PHandler
  listenerInstalled : Bool
deriving DecidableEq, Repr

/-- An observable invocation of a consumer callback during parent-side
processing. -/
inductive PCall
  /-- invocation of `this.options.onResize(payload.width, payload.height)` -/
  | fastResize (hid : Nat) (width height : Option Int)
  /-- invocation of `this.options.onScroll(payload.left, payload.top)` -/
  | fastScroll (hid : Nat) (left top : Option Int)
  /-- a generic-table handler invoked with the payload -/
  | user (hid : Nat) (payload : Payload)
  /-- the `readyCallback` invocation; `arg = none` models a call with no
  argument (the callback sees `undefined`) -/
  | ready (hid : Nat) (arg : Option Payload)
deriving DecidableEq, Repr

/-- The parent constructor: merges options, binds `handleMessage`, adds the
window listener, and registers the internal `ready` handler through
`onMessage`. -/
def parentCreate (iframeSrc : Nat) (o : ParentOptionsIn) : ParentState where
  options := mergeParentOptions o
  iframeSrc := iframeSrc
  contentWindowOk := true
  handlers := setTab [] "ready" PEntry.builtinReady
  isReady := false
  readyCallback := none
  listenerInstalled := true

/-- What a parent-side `message` event carries.  `bad` covers every
`event.data` that fails the validation
`typeof event.data !== 'object' || event.data === null || !event.data.type`
(non-objects, `null`, and objects with a falsy `type`). -/
inductive PEventData
  | bad
  | msg (type : String) (payload : Payload)
deriving DecidableEq, Repr

/-- A `message` event as seen by the parent listener: the posting window's
identity, the reported origin, and the data. -/
structure PEvent where
  source : Nat
  origin : String
  data : PEventData
deriving DecidableEq, Repr

/-- Model of `IFrameResizer.prototype.handleMessage` on the parent
(src/dist/iframe-resizer-parent.js:89-137).  Returns the new state, the
list of consumer-callback invocations, and whether an exception escaped
the handler uncaught. -/
def parentHandleMessage (p : ParentState) (e : PEvent) :
    ParentState × List PCall × Bool :=
  -- `if (event.source !== this.iframe.contentWindow) return;`
  if e.source ≠ p.iframeSrc then (p, [], false)
  else
    match e.data with
    | .bad => (p, [], false)
    | .msg t payload =>
      -- the validation treats a falsy (empty) type like a missing one
      if t = "" then (p, [], false)
      else if t = "resize" then
        -- fast path: the callback is invoked with no try/catch around it
        match p.options.onResize with
        | some h => (p, [.fastResize h.id (payload.get "width") (payload.get "height")], h.throws)
        | none => (p, [], false)
      else if t = "scroll" then
        match p.options.onScroll with
        | some h => (p, [.fastScroll h.id (payload.get "left") (payload.get "top")], h.throws)
        | none => (p, [], false)
      else
        match lookupTab p.handlers t with
        | some .builtinReady =>
          -- the closure registered in the constructor: sets `isReady` and
          -- invokes a pending `readyCallback` with the payload; it runs
          -- inside the dispatch try/catch, so nothing escapes
          ({ p with isReady := true },
           (match p.readyCallback with
            | some cb => [.ready cb.id (some payload)]
            | none => []),
           false)
        | some (.user h) =>
          -- `try { handler(payload, event) } catch (error) { log }`
          (p, [.user h.id payload], false)
        | none => (p, [], false)

/-- Delivery of a window `message` event: the handler only runs while the
listener is attached. -/
def parentDeliver (p : ParentState) (e : PEvent) :
    ParentState × List PCall × Bool :=
  if p.listenerInstalled then parentHandleMessage p e else (p, [], false)

/-- Model of `IFrameResizer.prototype.onReady` on the parent
(src/dist/iframe-resizer-parent.js:53-60).  When readiness already
arrived, the callback is invoked immediately — with no argument. -/
def parentOnReady (p : ParentState) (cb : PHandler) :
    ParentState × List PCall :=
  if p.isReady then (p, [.ready cb.id none])
  else ({ p with readyCallback := some cb }, [])

/-- The value a method returns, for checking chainability: `this`, or
`undefined` for a bare `return;` / fall-through. -/
inductive Ret
  | self
  | undef
deriving DecidableEq, Repr

/-- Model of `IFrameResizer.prototype.onMessage` on the parent: registers the
handler in the map and returns `this` on every path. -/
def parentOnMessage (p : ParentState) (t : String) (h : PHandler) :
    ParentState × Ret :=
  ({ p with handlers := setTab p.handlers t (.user h) }, .self)

/-- Model of `IFrameResizer.prototype.sendMessage` on the parent
(src/dist/iframe-resizer-parent.js:144-163).  Every path ends in a bare
`return;` or falls off the end: the method never returns `this`. -/
def parentSendMessage (p : ParentState) (t : String) (data : Payload) :
    List SentMsg × Ret :=
  if ¬ p.contentWindowOk then ([], .undef)
  else if t = "" then ([], .undef)
  else ([{ type := t, payload := data, targetOrigin := p.options.targetOrigin }], .undef)

/-- Model of `IFrameResizer.prototype.destroy` on the parent
(src/dist/iframe-resizer-parent.js:188-192): removes the message listener
and clears the handler map. -/
def parentDestroy (p : ParentState) : ParentState :=
  { p with listenerInstalled := false, handlers := [] }

/-- A consumer handler registered on the child via `onMessage`. -/
structure CHandler where
  id : Nat
  throws : Bool := false
deriving DecidableEq, Repr

/-- Child options as passed to the constructor. -/
structure ChildOptionsIn where
  targetOrigin : Option String := none
  resize : Option Bool := none
  scroll : Option Bool := none
  log : Option Bool := none
deriving DecidableEq, Repr

/-- Child options after the `{...defaultOptions, ...options}` merge, with
defaults `targetOrigin:'*', resize:true, scroll:true, log:false`. -/
structure ChildOptions where
  targetOrigin : String
  resize : Bool
  scroll : Bool
  log : Bool
deriving DecidableEq, Repr

def mergeChildOptions (o : ChildOptionsIn) : ChildOptions where
  targetOrigin := o.targetOrigin.getD "*"
  resize := o.resize.getD true
  scroll := o.scroll.getD true
  log := o.log.getD false

/-- Per-instance state of a child agent.  `observer` records whether
`this.observer` still holds a live `ResizeObserver` reference. -/
structure ChildInst where
  id : Nat
  options : ChildOptions
  lastHeight : Option Int := none
  lastWidth : Option Int := none
  handlers : List (String × CHandler) := []
  observer : Bool := false
deriving DecidableEq, Repr

/-- The child-side world: every constructed instance, the class-wide
static pointer `IFrameResizer.instance`, the registration sets of the
window/observer callbacks, and the trace of messages posted to the
parent. -/
structure ChildGlobal where
  instances : List ChildInst := []
  instancePtr : Option Nat := none
  resizeObservers : List Nat := []
  scrollListeners : List Nat := []
  messageListeners : List Nat := []
  sent : List SentMsg := []
deriving DecidableEq, Repr

/-- The pristine world before any child agent is constructed. -/
def emptyG : ChildGlobal := {}

def findInst (g : ChildGlobal) (iid : Nat) : Option ChildInst :=
  g.instances.find? (fun i => i.id = iid)

def updateInst (g : ChildGlobal) (iid : Nat) (f : ChildInst → ChildInst) :
    ChildGlobal :=
  { g with instances := g.instances.map (fun i => if i.id = iid then f i else i) }

/-- Model of `IFrameResizer.prototype.sendMessage` on the child
(src/dist/iframe-resizer-child.js:185-193): posts only while the static
`IFrameResizer.instance` pointer is truthy, else error-logs; always
returns `this`. -/
def childSendMessage (g : ChildGlobal) (iid : Nat) (t : String) (data : Payload) :
    ChildGlobal :=
  if g.instancePtr.isSome then
    match findInst g iid with
    | some inst =>
      { g with sent := g.sent ++ [{ type := t, payload := data,
                                    targetOrigin := inst.options.targetOrigin }] }
    | none => g
  else g

/-- The return value of the child's `sendMessage`: `return this;` on every
path. -/
def childSendMessageRet : Ret := .self

/-- The per-instance effect of the child's `destroy`: `this.observer =
null`, `this.customMessageHandlers.clear()`, `this.lastHeight = null`,
`this.lastWidth = null`. -/
def clearInstFields (i : ChildInst) : ChildInst :=
  { i with observer := false, handlers := [], lastHeight := none, lastWidth := none }

/-- Model of `IFrameResizer.prototype.destroy` on the child
(src/dist/iframe-resizer-child.js:209-226): unobserves the body when an
observer is still held, removes the scroll and message listeners, clears
the handler map, nulls the cached dimensions, and unconditionally resets
the static instance pointer. -/
def childDestroy (g : ChildGlobal) (iid : Nat) : ChildGlobal :=
  match findInst g iid with
  | none => { g with instancePtr := none }
  | some inst =>
    let g1 := if inst.options.resize ∧ inst.observer then
        { g with resizeObservers := g.resizeObservers.filter (fun j => j ≠ iid) }
      else g
    let g2 := if inst.options.scroll then
        { g1 with scrollListeners := g1.scrollListeners.filter (fun j => j ≠ iid) }
      else g1
    let g3 := { g2 with messageListeners := g2.messageListeners.filter (fun j => j ≠ iid) }
    let g4 := updateInst g3 iid clearInstFields
    { g4 with instancePtr := none }

/-- The child constructor (src/dist/iframe-resizer-child.js:50-94):
aborts outside an iframe; otherwise destroys a live predecessor, takes the
static pointer, merges options, installs the message listener, registers
the resize observer and the scroll listener per options, and sends
`init`. -/
def childCreate (g : ChildGlobal) (newId : Nat) (o : ChildOptionsIn)
    (hasParent : Bool) : ChildGlobal :=
  if ¬ hasParent then g
  else
    let g1 := match g.instancePtr with
      | some old => childDestroy g old
      | none => g
    let opts := mergeChildOptions o
    let inst : ChildInst := { id := newId, options := opts, observer := opts.resize }
    let g2 : ChildGlobal :=
      { g1 with
        instancePtr := some newId,
        instances := g1.instances ++ [inst],
        messageListeners := g1.messageListeners ++ [newId],
        resizeObservers := if opts.resize then g1.resizeObservers ++ [newId]
                           else g1.resizeObservers,
        scrollListeners := if opts.scroll then g1.scrollListeners ++ [newId]
                           else g1.scrollListeners }
    childSendMessage g2 newId "init" []

/-- The cache update performed when the child's `onResize` emits:
`this.lastHeight = newHeight; this.lastWidth = newWidth`. -/
def setCaches (dom : Dom) (i : ChildInst) : ChildInst :=
  { i with lastHeight := some dom.bodyScrollHeight,
           lastWidth := some dom.bodyScrollWidth }

/-- Model of `IFrameResizer.prototype.onResize` on the child
(src/dist/iframe-resizer-child.js:119-130): guarded by the static
pointer; recomputes `{body.scrollHeight, body.scrollWidth}`, compares to
the cached last values, and emits `resize` on change or force. -/
def childOnResize (g : ChildGlobal) (iid : Nat) (dom : Dom) (force : Bool) :
    ChildGlobal :=
  match findInst g iid with
  | none => g
  | some inst =>
    if g.instancePtr.isSome then
      let newHeight := dom.bodyScrollHeight
      let newWidth := dom.bodyScrollWidth
      if force ∨ some newHeight ≠ inst.lastHeight ∨ some newWidth ≠ inst.lastWidth then
        childSendMessage (updateInst g iid (setCaches dom)) iid "resize"
          [("height", newHeight), ("width", newWidth)]
      else g
    else g

/-- Model of `IFrameResizer.prototype.onScroll` on the child
(src/dist/iframe-resizer-child.js:133-139): guarded by the static
pointer; emits `scroll` with `scrollY || documentElement.scrollTop` and
`scrollX || documentElement.scrollLeft` (`0` is falsy). -/
def childOnScroll (g : ChildGlobal) (iid : Nat) (dom : Dom) : ChildGlobal :=
  match findInst g iid with
  | none => g
  | some _ =>
    if g.instancePtr.isSome then
      let top := if dom.scrollY ≠ 0 then dom.scrollY else dom.docScrollTop
      let left := if dom.scrollX ≠ 0 then dom.scrollX else dom.docScrollLeft
      childSendMessage g iid "scroll" [("top", top), ("left", left)]
    else g

/-- Model of `IFrameResizer.prototype.onMessage` on the child
(src/dist/iframe-resizer-child.js:172-182): registers only while the
static pointer is truthy, and returns `this` on every path. -/
def childOnMessage (g : ChildGlobal) (iid : Nat) (t : String) (h : CHandler) :
    ChildGlobal × Ret :=
  if g.instancePtr.isSome then
    (updateInst g iid (fun i => { i with handlers := setTab i.handlers t h }), .self)
  else (g, .self)

/-- What a child-side `message` event carries.  `nullData` models
`event.data === null` (or `undefined`), on which the destructuring
`const {type, ...data} = event.data` throws a `TypeError`;
`msg none payload` models an object without a `type` field. -/
inductive CEventData
  | nullData
  | msg (type : Option String) (payload : Payload)
deriving DecidableEq, Repr

/-- A `message` event as seen by a child listener. -/
structure CEvent where
  origin : String
  data : CEventData
deriving DecidableEq, Repr

/-- Model of `IFrameResizer.prototype.handleMessage` on the child
(src/dist/iframe-resizer-child.js:142-169).  Returns the new world, the
consumer-handler invocations `(handler id, payload)`, and whether an
exception escaped the handler uncaught. -/
def childHandleMessage (g : ChildGlobal) (iid : Nat) (e : CEvent) :
    ChildGlobal × List (Nat × Payload) × Bool :=
  match findInst g iid with
  | none => (g, [], false)
  | some inst =>
    -- `if (this.options.targetOrigin !== '*' && event.origin !== this.options.targetOrigin) return;`
    if inst.options.targetOrigin ≠ "*" ∧ e.origin ≠ inst.options.targetOrigin then
      (g, [], false)
    else
      match e.data with
      | .nullData => (g, [], true)  -- destructuring `event.data` throws, uncaught
      | .msg t payload =>
        match t.bind (fun ty => lookupTab inst.handlers ty) with
        | none => (g, [], false)
        | some h =>
          -- `try { handler(data, event) } catch (error) { log }`
          (g, [(h.id, payload)], false)

/-- One listener invocation during delivery of a window `message` event on
the child side: runs `handleMessage` for the listener `iid` and tags its
dispatches with the instance id. -/
def deliverStep (e : CEvent) (acc : ChildGlobal × List (Nat × Nat × Payload) × Bool)
    (iid : Nat) : ChildGlobal × List (Nat × Nat × Payload) × Bool :=
  let r := childHandleMessage acc.1 iid e
  (r.1, acc.2.1 ++ r.2.1.map (fun c => (iid, c)), acc.2.2 || r.2.2)

/-- Delivery of a window `message` event on the child side: every
still-registered listener runs, each invocation tagged with its
instance id.  The escape flag is true when any handler let an exception
escape. -/
def childDeliver (g : ChildGlobal) (e : CEvent) :
    ChildGlobal × List (Nat × Nat × Payload) × Bool :=
  g.messageListeners.foldl (deliverStep e) (g, [], false)

/-- A layout-change trigger: the `ResizeObserver` callback fires for every
observer still observing `document.body`. -/
def resizeTrigger (g : ChildGlobal) (dom : Dom) : ChildGlobal :=
  g.resizeObservers.foldl (fun acc iid => childOnResize acc iid dom false) g

/-- A scroll event: every still-attached scroll listener runs. -/
def scrollTrigger (g : ChildGlobal) (dom : Dom) : ChildGlobal :=
  g.scrollListeners.foldl (fun acc iid => childOnScroll acc iid dom) g

/-- Value `Math.max(bodyHeight, htmlHeight, offsetHeight)` as computed by the
MutationObserver-based child variant
(src/dist/iframe-resizer-child.js:340-345). -/
def onResizeMaxHeight (dom : Dom) : Int :=
  max dom.bodyScrollHeight (max dom.docScrollHeight dom.docOffsetHeight)

/-- Model of `onResize` of the MutationObserver-based child variant
(src/dist/iframe-resizer-child.js:340-351): reads the three sizes, takes
their maximum, and emits `resize {height}` on change or force.  Returns
the new `lastHeight` cache and the messages posted. -/
def onResizeMax (lastHeight : Option Int) (dom : Dom) (force : Bool)
    (targetOrigin : String) : Option Int × List SentMsg :=
  let bodyHeight := dom.bodyScrollHeight
  let htmlHeight := dom.docScrollHeight
  let offsetHeight := dom.docOffsetHeight
  let newHeight := max bodyHeight (max htmlHeight offsetHeight)
  if force ∨ some newHeight ≠ lastHeight then
    (some newHeight, [{ type := "resize", payload := [("height", newHeight)],
                        targetOrigin := targetOrigin }])
  else (lastHeight, [])

/-- Options of the ready-emitting child (src/unnamed/part_000:203-211),
whose defaults include `initData: {}`. -/
structure RChildOptionsIn where
  targetOrigin : Option String := none
  resize : Option Bool := none
  scroll : Option Bool := none
  log : Option Bool := none
  initData : Option Payload := none
deriving DecidableEq, Repr

structure RChildOptions where
  targetOrigin : String
  resize : Bool
  scroll : Bool
  log : Bool
  initData : Payload
deriving DecidableEq, Repr

def mergeRChildOptions (o : RChildOptionsIn) : RChildOptions where
  targetOrigin := o.targetOrigin.getD "*"
  resize := o.resize.getD true
  scroll := o.scroll.getD true
  log := o.log.getD false
  initData := o.initData.getD []

/-- The part of the ready-emitting child's state that the deferred `ready`
emission depends on: the merged options, whether the `setTimeout(..., 0)`
callback is still pending, and whether the static instance pointer is
still truthy when it runs. -/
structure RChildState where
  options : RChildOptions
  pendingReady : Bool
  live : Bool
deriving DecidableEq, Repr

/-- The ready-emitting child constructor (src/unnamed/part_000:203-254):
merges options (including `initData`) and schedules
`setTimeout(() => { this.sendMessage('ready', {}) }, 0)`. -/
def rChildCreate (o : RChildOptionsIn) : RChildState where
  options := mergeRChildOptions o
  pendingReady := true
  live := true

/-- Running the deferred tick: the scheduled closure is
`() => { this.sendMessage('ready', {}) }` (src/unnamed/part_000:250-252),
so the payload posted is the empty object literal `{}`; `sendMessage`
still guards on the static pointer. -/
def rChildRunTimeout (s : RChildState) : List SentMsg :=
  if s.pendingReady then
    if s.live then
      [{ type := "ready", payload := [], targetOrigin := s.options.targetOrigin }]
    else []
  else []

/-! ### Concrete scenario states used by the claim theorems -/

/-- A parent configured with a non-wildcard `targetOrigin`, a throwing-free
`onResize` callback, and iframe content window `7`. -/
def c1Parent : ParentState :=
  parentCreate 7 { targetOrigin := some "https://a.example",
                   onResize := some { id := 0 } }

/-- A resize message whose event source matches the iframe but whose
reported origin differs from the configured `targetOrigin`. -/
def c1Event : PEvent :=
  { source := 7, origin := "https://evil.example",
    data := .msg "resize" [("height", 400), ("width", 300)] }

/-- A child agent configured with a non-wildcard `targetOrigin`. -/
def c1Child : ChildGlobal :=
  childCreate emptyG 0 { targetOrigin := some "https://p.example" } true

/-- The instance record `c1Child` holds. -/
def c1ChildInst : ChildInst :=
  { id := 0,
    options := mergeChildOptions { targetOrigin := some "https://p.example" },
    observer := true }

/-- A message event whose reported origin mismatches the child's
configured `targetOrigin`. -/
def c1ChildEvent : CEvent :=
  { origin := "https://evil.example", data := .msg (some "resize") [] }

/-- A parent constructed with the default options, iframe source `3`. -/
def c2Parent : ParentState := parentCreate 3 {}

/-- The `ready` message, carrying a non-empty payload. -/
def c2ReadyEvent : PEvent :=
  { source := 3, origin := "https://c.example", data := .msg "ready" [("a", 5)] }

/-- A concrete DOM reading used to instantiate trigger theorems. -/
def c3Dom : Dom :=
  { bodyScrollHeight := 600, bodyScrollWidth := 300, docScrollHeight := 600,
    docOffsetHeight := 600, scrollY := 0, scrollX := 0, docScrollTop := 0,
    docScrollLeft := 0 }

/-- A freshly constructed child agent with default options. -/
def c4G : ChildGlobal := childCreate emptyG 0 {} true

/-- The instance record `c4G` holds. -/
def c4Inst : ChildInst :=
  { id := 0, options := mergeChildOptions {}, observer := true }

/-- The DOM reading separating the two height strategies: the body scroll
height is 100 while the document root's scroll height is 300. -/
def c5Dom : Dom :=
  { bodyScrollHeight := 100, bodyScrollWidth := 50, docScrollHeight := 300,
    docOffsetHeight := 200, scrollY := 0, scrollX := 0, docScrollTop := 0,
    docScrollLeft := 0 }

/-- A freshly constructed child agent with default options. -/
def c5G : ChildGlobal := childCreate emptyG 0 {} true

/-- A parent whose `onResize` option is a callback that throws. -/
def c6Parent : ParentState := parentCreate 2 { onResize := some { id := 0, throws := true } }

/-- A well-formed resize message from the expected source. -/
def c6Event : PEvent :=
  { source := 2, origin := "https://c.example",
    data := .msg "resize" [("height", 10), ("width", 20)] }

/-- A freshly constructed child agent with default options. -/
def c6G : ChildGlobal := childCreate emptyG 0 {} true

/-- A parent with a throwing consumer handler registered for type `cfg`. -/
def c6ParentTab : ParentState :=
  (parentOnMessage (parentCreate 4 {}) "cfg" { id := 1, throws := true }).1

/-- A child with a throwing consumer handler registered for type `cfg`. -/
def c6GTab : ChildGlobal :=
  (childOnMessage (childCreate emptyG 0 {} true) 0 "cfg" { id := 2, throws := true }).1

/-- The instance record `c6GTab` holds. -/
def c6GTabInst : ChildInst :=
  { id := 0, options := mergeChildOptions {}, observer := true,
    handlers := [("cfg", { id := 2, throws := true })] }

/-- The state the child's `destroy` produces when the instance `inst` with
id `iid` is found, written as one record (used to reason about repeated
destruction). -/
def destroyedG (g : ChildGlobal) (iid : Nat) (inst : ChildInst) : ChildGlobal where
  instances := g.instances.map (fun i => if i.id = iid then clearInstFields i else i)
  instancePtr := none
  resizeObservers := if inst.options.resize ∧ inst.observer then
      g.resizeObservers.filter (fun j => j ≠ iid)
    else g.resizeObservers
  scrollListeners := if inst.options.scroll then
      g.scrollListeners.filter (fun j => j ≠ iid)
    else g.scrollListeners
  messageListeners := g.messageListeners.filter (fun j => j ≠ iid)
  sent := g.sent

/-- A parent constructed with default options. -/
def c9Parent : ParentState := parentCreate 1 {}

/-- The world after constructing child agent 0, replacing it with child
agent 1, and then calling `destroy()` on the stale predecessor 0. -/
def c10G : ChildGlobal :=
  childDestroy (childCreate (childCreate emptyG 0 {} true) 1 {} true) 0

/-- A world with a null static pointer (a destroyed singleton). -/
def c10GNull : ChildGlobal := childDestroy (childCreate emptyG 0 {} true) 0

/-! ### Supporting lemmas -/

theorem lookupTab_setTab_self {α : Type} (hs : List (String × α)) (t : String) (v : α) :
    lookupTab (setTab hs t v) t = some v := by
  induction hs with
  | nil => simp [setTab, lookupTab]
  | cons h tl ih =>
    by_cases h1 : h.1 = t
    · simp [setTab, lookupTab, h1]
    · simp [setTab, lookupTab, h1] at *
      exact ih

theorem lookupTab_setTab_other {α : Type} (hs : List (String × α)) (t t' : String) (v : α)
    (hne : t' ≠ t) : lookupTab (setTab hs t v) t' = lookupTab hs t' := by
  have hts : ¬ (t = t') := fun hh => hne hh.symm
  induction hs with
  | nil => simp [setTab, lookupTab, List.find?_cons, hts]
  | cons h tl ih =>
    by_cases h1 : h.1 = t
    · have h3 : ¬ (h.1 = t') := by rw [h1]; exact hts
      simp only [setTab, if_pos h1, lookupTab, List.find?_cons]
      simp [hts, h3]
    · simp only [setTab, if_neg h1, lookupTab, List.find?_cons]
      by_cases h2 : h.1 = t'
      · simp [h2]
      · simp [h2]
        simpa [lookupTab] using ih

theorem childSendMessage_instances (g : ChildGlobal) (iid : Nat) (t : String)
    (d : Payload) : (childSendMessage g iid t d).instances = g.instances := by
  unfold childSendMessage
  split
  · split <;> rfl
  · rfl

theorem childSendMessage_instancePtr (g : ChildGlobal) (iid : Nat) (t : String)
    (d : Payload) : (childSendMessage g iid t d).instancePtr = g.instancePtr := by
  unfold childSendMessage
  split
  · split <;> rfl
  · rfl

theorem childSendMessage_resizeObservers (g : ChildGlobal) (iid : Nat) (t : String)
    (d : Payload) : (childSendMessage g iid t d).resizeObservers = g.resizeObservers := by
  unfold childSendMessage
  split
  · split <;> rfl
  · rfl

theorem childSendMessage_scrollListeners (g : ChildGlobal) (iid : Nat) (t : String)
    (d : Payload) : (childSendMessage g iid t d).scrollListeners = g.scrollListeners := by
  unfold childSendMessage
  split
  · split <;> rfl
  · rfl

theorem childSendMessage_messageListeners (g : ChildGlobal) (iid : Nat) (t : String)
    (d : Payload) : (childSendMessage g iid t d).messageListeners = g.messageListeners := by
  unfold childSendMessage
  split
  · split <;> rfl
  · rfl

theorem childSendMessage_of_some (g : ChildGlobal) (iid : Nat) (t : String)
    (d : Payload) (inst : ChildInst) (hptr : g.instancePtr.isSome)
    (hfind : findInst g iid = some inst) :
    childSendMessage g iid t d =
      { g with sent := g.sent ++ [{ type := t, payload := d,
                                    targetOrigin := inst.options.targetOrigin }] } := by
  unfold childSendMessage
  simp [hptr, hfind]

theorem childSendMessage_of_none (g : ChildGlobal) (iid : Nat) (t : String)
    (d : Payload) (hptr : g.instancePtr = none) :
    childSendMessage g iid t d = g := by
  unfold childSendMessage
  simp [hptr]

theorem find_map_update (l : List ChildInst) (iid : Nat)
    (f : ChildInst → ChildInst) (hf : ∀ i, (f i).id = i.id) :
    (l.map (fun i => if i.id = iid then f i else i)).find? (fun i => i.id = iid)
      = (l.find? (fun i => i.id = iid)).map f := by
  induction l with
  | nil => simp
  | cons x xs ih =>
    by_cases hx : x.id = iid
    · simp [List.find?_cons, hx, hf]
    · simp [List.find?_cons, hx, ih]

theorem findInst_updateInst_self (g : ChildGlobal) (iid : Nat)
    (f : ChildInst → ChildInst) (hf : ∀ i, (f i).id = i.id) :
    findInst (updateInst g iid f) iid = (findInst g iid).map f :=
  find_map_update g.instances iid f hf

theorem updateInst_instancePtr (g : ChildGlobal) (iid : Nat)
    (f : ChildInst → ChildInst) : (updateInst g iid f).instancePtr = g.instancePtr := rfl

theorem updateInst_sent (g : ChildGlobal) (iid : Nat)
    (f : ChildInst → ChildInst) : (updateInst g iid f).sent = g.sent := rfl

theorem childOnResize_of_ptr_none (g : ChildGlobal) (iid : Nat) (dom : Dom)
    (force : Bool) (hptr : g.instancePtr = none) :
    childOnResize g iid dom force = g := by
  unfold childOnResize
  split
  · rfl
  · simp [hptr]

theorem childOnScroll_of_ptr_none (g : ChildGlobal) (iid : Nat) (dom : Dom)
    (hptr : g.instancePtr = none) :
    childOnScroll g iid dom = g := by
  unfold childOnScroll
  split
  · rfl
  · simp [hptr]

theorem resizeTrigger_of_ptr_none (g : ChildGlobal) (dom : Dom)
    (hptr : g.instancePtr = none) : resizeTrigger g dom = g := by
  unfold resizeTrigger
  generalize g.resizeObservers = l
  induction l with
  | nil => rfl
  | cons x xs ih => simpa [List.foldl_cons, childOnResize_of_ptr_none g x dom false hptr] using ih

theorem scrollTrigger_of_ptr_none (g : ChildGlobal) (dom : Dom)
    (hptr : g.instancePtr = none) : scrollTrigger g dom = g := by
  unfold scrollTrigger
  generalize g.scrollListeners = l
  induction l with
  | nil => rfl
  | cons x xs ih => simpa [List.foldl_cons, childOnScroll_of_ptr_none g x dom hptr] using ih

theorem childDeliver_calls_tags (g : ChildGlobal) (e : CEvent) :
    ∀ c ∈ (childDeliver g e).2.1, c.1 ∈ g.messageListeners := by
  unfold childDeliver
  have main : ∀ (l : List Nat) (acc : ChildGlobal × List (Nat × Nat × Payload) × Bool),
      ∀ c ∈ (l.foldl (deliverStep e) acc).2.1, c ∈ acc.2.1 ∨ c.1 ∈ l := by
    intro l
    induction l with
    | nil => intro acc c hc; exact Or.inl hc
    | cons x xs ih =>
      intro acc c hc
      rcases ih _ c hc with h | h
      · rcases List.mem_append.mp h with h | h
        · exact Or.inl h
        · rcases List.mem_map.mp h with ⟨cc, _, rfl⟩
          exact Or.inr (List.mem_cons_self x xs)
      · exact Or.inr (List.mem_cons_of_mem x h)
  intro c hc
  rcases main g.messageListeners (g, [], false) c hc with h | h
  · simp at h
  · exact h

/-! ### C1 — origin filtering -/

/-- C1, counterexample: on the parent, a message whose reported origin
differs from the non-wildcard configured `targetOrigin` is nevertheless
delivered — `handleMessage` never inspects `event.origin`, it only checks
`event.source`, so the built-in `onResize` fast path fires. -/
theorem C1_counterexample :
    c1Parent.options.targetOrigin = "https://a.example" ∧
    c1Event.origin ≠ c1Parent.options.targetOrigin ∧
    (parentHandleMessage c1Parent c1Event).2.1
      = [.fastResize 0 (some 300) (some 400)] := by
  refine ⟨rfl, by decide, ?_⟩
  rfl

/-- C1, amended: origin filtering happens only on the child side — a child
whose non-wildcard `targetOrigin` mismatches the event's reported origin
delivers the message to no handler and changes nothing; on the parent the
guard is the event source (`event.source !== this.iframe.contentWindow`),
not the origin. -/
theorem C1_origin_filter :
    (∀ (g : ChildGlobal) (iid : Nat) (inst : ChildInst) (e : CEvent),
      findInst g iid = some inst →
      inst.options.targetOrigin ≠ "*" →
      e.origin ≠ inst.options.targetOrigin →
      childHandleMessage g iid e = (g, [], false))
    ∧ (∀ (p : ParentState) (e : PEvent), e.source ≠ p.iframeSrc →
      parentHandleMessage p e = (p, [], false)) := by
  constructor
  · intro g iid inst e hfind h1 h2
    unfold childHandleMessage
    simp [hfind, h1, h2]
  · intro p e hs
    unfold parentHandleMessage
    simp [hs]

theorem C1_origin_filter_witness :
    findInst c1Child 0 = some c1ChildInst ∧
    c1ChildInst.options.targetOrigin ≠ "*" ∧
    c1ChildEvent.origin ≠ c1ChildInst.options.targetOrigin ∧
    childHandleMessage c1Child 0 c1ChildEvent = (c1Child, [], false) :=
  ⟨by decide, by decide, by decide,
   C1_origin_filter.1 c1Child 0 c1ChildInst c1ChildEvent
     (by decide) (by decide) (by decide)⟩

/-! ### C2 — onReady behaviour -/

/-- C2, counterexample: when `onReady` is registered after the `ready`
message already arrived, the callback is invoked synchronously but with no
argument (`callback()` in `onReady`), not with the ready payload — so a
single run in which registration follows arrival falsifies "receives the
ready payload as its argument ... regardless". -/
theorem C2_counterexample :
    (parentHandleMessage c2Parent c2ReadyEvent).1.isReady = true ∧
    (parentOnReady (parentHandleMessage c2Parent c2ReadyEvent).1 { id := 9 }).2
      = [.ready 9 none] ∧
    PCall.ready 9 none ≠ PCall.ready 9 (some [("a", 5)]) := by
  refine ⟨rfl, rfl, by decide⟩

/-- C2, amended: a single `ready` arrival fires `onReady` exactly once in
either registration order; with the ready payload when the callback was
registered before arrival, but with no argument when registered after
arrival; a second registration before readiness replaces the first. -/
theorem C2_onReady_behaviour :
    ∀ (src : Nat) (o : ParentOptionsIn) (origin : String) (payload : Payload)
      (cb cb2 : PHandler),
      -- registered before arrival: fires exactly once, with the payload
      (parentHandleMessage (parentOnReady (parentCreate src o) cb).1
          { source := src, origin := origin, data := .msg "ready" payload }).2.1
        = [.ready cb.id (some payload)]
      ∧ -- a second registration before readiness replaces the first
      (parentOnReady (parentOnReady (parentCreate src o) cb).1 cb2).1.readyCallback
        = some cb2
      ∧ -- registered after arrival: invoked synchronously exactly once,
        -- with no argument
      (parentOnReady (parentHandleMessage (parentCreate src o)
          { source := src, origin := origin, data := .msg "ready" payload }).1 cb).2
        = [.ready cb.id none] := by
  intro src o origin payload cb cb2
  refine ⟨?_, ?_, ?_⟩
  · simp [parentCreate, parentOnReady, parentHandleMessage, setTab, lookupTab]
  · simp [parentCreate, parentOnReady]
  · simp [parentCreate, parentOnReady, parentHandleMessage, setTab, lookupTab]

/-! ### C3 — singleton replacement yields exactly one resize emission -/

/-- C3: constructing a second child agent while one is active first runs
the predecessor's `destroy` — its observer, scroll listener and message
listener are all unregistered — and a subsequent layout-change trigger
posts exactly one `resize` message (from the new agent). -/
theorem C3_second_agent_single_resize :
    ∀ (oA oB : ChildOptionsIn) (dom : Dom),
      (mergeChildOptions oB).resize = true →
      (0 ∉ (childCreate (childCreate emptyG 0 oA true) 1 oB true).resizeObservers ∧
       0 ∉ (childCreate (childCreate emptyG 0 oA true) 1 oB true).scrollListeners ∧
       0 ∉ (childCreate (childCreate emptyG 0 oA true) 1 oB true).messageListeners) ∧
      (resizeTrigger (childCreate (childCreate emptyG 0 oA true) 1 oB true) dom).sent
        = (childCreate (childCreate emptyG 0 oA true) 1 oB true).sent ++
          [{ type := "resize",
             payload := [("height", dom.bodyScrollHeight), ("width", dom.bodyScrollWidth)],
             targetOrigin := (mergeChildOptions oB).targetOrigin }] := by
  intro oA oB dom hB
  cases hAr : (mergeChildOptions oA).resize <;>
    cases hAs : (mergeChildOptions oA).scroll <;>
      cases hBs : (mergeChildOptions oB).scroll <;>
        simp [childCreate, childDestroy, childSendMessage, childOnResize,
              resizeTrigger, updateInst, findInst, emptyG, hAr, hAs, hBs, hB,
              clearInstFields, setCaches, List.find?, List.filter]

theorem C3_second_agent_single_resize_witness :
    (mergeChildOptions {}).resize = true ∧
    (0 ∉ (childCreate (childCreate emptyG 0 {} true) 1 {} true).resizeObservers ∧
     0 ∉ (childCreate (childCreate emptyG 0 {} true) 1 {} true).scrollListeners ∧
     0 ∉ (childCreate (childCreate emptyG 0 {} true) 1 {} true).messageListeners) ∧
    (resizeTrigger (childCreate (childCreate emptyG 0 {} true) 1 {} true) c3Dom).sent
      = (childCreate (childCreate emptyG 0 {} true) 1 {} true).sent ++
        [{ type := "resize",
           payload := [("height", c3Dom.bodyScrollHeight), ("width", c3Dom.bodyScrollWidth)],
           targetOrigin := (mergeChildOptions {}).targetOrigin }] :=
  ⟨by decide,
   (C3_second_agent_single_resize {} {} c3Dom (by decide)).1,
   (C3_second_agent_single_resize {} {} c3Dom (by decide)).2⟩

/-! ### C4 — resize emission iff changed or forced -/

/-- C4: on an active child agent (truthy static pointer), `onResize` posts
a `resize` message exactly when the freshly read `{height,width}` differs
from the cached last-emitted pair or the force flag is set — and a second
signal with identical readings right after the first emits nothing
further. -/
theorem C4_resize_emission_iff
    (g : ChildGlobal) (iid : Nat) (inst : ChildInst) (dom : Dom) (force : Bool)
    (hfind : findInst g iid = some inst) (hptr : g.instancePtr.isSome) :
    ((childOnResize g iid dom force).sent = g.sent ++
      (if force ∨ some dom.bodyScrollHeight ≠ inst.lastHeight
              ∨ some dom.bodyScrollWidth ≠ inst.lastWidth then
        [{ type := "resize",
           payload := [("height", dom.bodyScrollHeight), ("width", dom.bodyScrollWidth)],
           targetOrigin := inst.options.targetOrigin }]
       else []))
    ∧ (childOnResize (childOnResize g iid dom force) iid dom false).sent
        = (childOnResize g iid dom force).sent := by
  by_cases hc : force ∨ some dom.bodyScrollHeight ≠ inst.lastHeight
      ∨ some dom.bodyScrollWidth ≠ inst.lastWidth
  · -- the first signal emits
    have hfind1 : findInst (updateInst g iid (setCaches dom)) iid
        = some (setCaches dom inst) := by
      rw [findInst_updateInst_self g iid (setCaches dom) (fun i => rfl), hfind]
      rfl
    have hptr1 : (updateInst g iid (setCaches dom)).instancePtr.isSome := by
      rw [updateInst_instancePtr]; exact hptr
    have hstep : childOnResize g iid dom force =
        { updateInst g iid (setCaches dom) with
          sent := g.sent ++
            [{ type := "resize",
               payload := [("height", dom.bodyScrollHeight), ("width", dom.bodyScrollWidth)],
               targetOrigin := inst.options.targetOrigin }] } := by
      unfold childOnResize
      rw [hfind]
      simp only [hptr, if_true]
      rw [if_pos hc]
      rw [childSendMessage_of_some _ _ _ _ (setCaches dom inst) hptr1 hfind1]
      rfl
    constructor
    · rw [hstep, if_pos hc]
    · -- second identical signal: caches now match, nothing is emitted
      rw [hstep]
      conv_lhs => unfold childOnResize
      have hfind2 : findInst ({ updateInst g iid (setCaches dom) with
          sent := g.sent ++
            [{ type := "resize",
               payload := [("height", dom.bodyScrollHeight), ("width", dom.bodyScrollWidth)],
               targetOrigin := inst.options.targetOrigin }] }) iid
          = some (setCaches dom inst) := hfind1
      rw [hfind2]
      have hptr2 : ({ updateInst g iid (setCaches dom) with
          sent := g.sent ++
            [{ type := "resize",
               payload := [("height", dom.bodyScrollHeight), ("width", dom.bodyScrollWidth)],
               targetOrigin := inst.options.targetOrigin }] } : ChildGlobal).instancePtr.isSome :=
        hptr
      simp [hptr2, setCaches]
  · -- no change and no force: nothing is emitted, caches already match
    have hng : childOnResize g iid dom force = g := by
      unfold childOnResize
      rw [hfind]
      simp only [hptr, if_true]
      rw [if_neg hc]
    constructor
    · rw [hng, if_neg hc]; simp
    · rw [hng]
      unfold childOnResize
      rw [hfind]
      simp only [hptr, if_true]
      push_neg at hc
      rw [if_neg]
      simp [hc.2.1, hc.2.2]

theorem C4_resize_emission_iff_witness :
    findInst c4G 0 = some c4Inst ∧
    c4G.instancePtr.isSome ∧
    (((childOnResize c4G 0 c3Dom false).sent = c4G.sent ++
      (if false = true ∨ some c3Dom.bodyScrollHeight ≠ c4Inst.lastHeight
              ∨ some c3Dom.bodyScrollWidth ≠ c4Inst.lastWidth then
        [{ type := "resize",
           payload := [("height", c3Dom.bodyScrollHeight), ("width", c3Dom.bodyScrollWidth)],
           targetOrigin := c4Inst.options.targetOrigin }]
       else []))
    ∧ (childOnResize (childOnResize c4G 0 c3Dom false) 0 c3Dom false).sent
        = (childOnResize c4G 0 c3Dom false).sent) :=
  ⟨by decide, by decide,
   C4_resize_emission_iff c4G 0 c4Inst c3Dom false (by decide) (by decide)⟩

/-! ### C5 — recomputed height -/

/-- C5, counterexample: the ResizeObserver-based child
(src/dist/iframe-resizer-child.js:119-130) carries
`document.body.scrollHeight` alone in its `resize` message — here 100 —
which differs from the three-way maximum (300), so "the child agent
recomputes the current height as the maximum of the three sizes" fails on
this variant. -/
theorem C5_counterexample :
    (childOnResize c5G 0 c5Dom false).sent = c5G.sent ++
      [{ type := "resize", payload := [("height", 100), ("width", 50)],
         targetOrigin := "*" }] ∧
    (100 : Int) ≠ onResizeMaxHeight c5Dom := by
  refine ⟨?_, by decide⟩
  rfl

/-- C5, amended: only the MutationObserver-based child variant
(src/dist/iframe-resizer-child.js:340-351) recomputes the height as the
maximum of body scroll size, document-root scroll size and document-root
offset size; there, whenever a `resize` message is emitted, the height it
carries is exactly that maximum — an upper bound of all three sizes that
is attained by one of them.  The ResizeObserver-based variant instead
emits `document.body.scrollHeight` alone. -/
theorem C5_max_variant_height
    (last : Option Int) (dom : Dom) (force : Bool) (torig : String) (m : SentMsg)
    (hm : m ∈ (onResizeMax last dom force torig).2) :
    m.payload.get "height" = some (onResizeMaxHeight dom) ∧
    (∀ v : Int, m.payload.get "height" = some v →
      dom.bodyScrollHeight ≤ v ∧ dom.docScrollHeight ≤ v ∧ dom.docOffsetHeight ≤ v ∧
      (v = dom.bodyScrollHeight ∨ v = dom.docScrollHeight ∨ v = dom.docOffsetHeight)) := by
  unfold onResizeMax at hm
  by_cases hc : force ∨ some (max dom.bodyScrollHeight (max dom.docScrollHeight dom.docOffsetHeight)) ≠ last
  · rw [if_pos hc] at hm
    simp only [List.mem_singleton] at hm
    subst hm
    constructor
    · simp [Payload.get, List.find?, onResizeMaxHeight]
    · intro v hv
      simp only [Payload.get, List.find?_cons] at hv
      simp at hv
      subst hv
      refine ⟨le_max_left _ _, le_trans (le_max_left _ _) (le_max_right _ _),
              le_trans (le_max_right _ _) (le_max_right _ _), ?_⟩
      rcases max_choice dom.bodyScrollHeight (max dom.docScrollHeight dom.docOffsetHeight) with h | h
      · exact Or.inl h
      · rcases max_choice dom.docScrollHeight dom.docOffsetHeight with h2 | h2 <;> rw [h, h2]
        · exact Or.inr (Or.inl rfl)
        · exact Or.inr (Or.inr rfl)
  · rw [if_neg hc] at hm
    simp at hm

theorem C5_max_variant_height_witness :
    ({ type := "resize", payload := [("height", (300 : Int))], targetOrigin := "*" } : SentMsg)
      ∈ (onResizeMax none c5Dom false "*").2 ∧
    ({ type := "resize", payload := [("height", (300 : Int))], targetOrigin := "*" } : SentMsg).payload.get "height"
      = some (onResizeMaxHeight c5Dom) :=
  ⟨by decide,
   (C5_max_variant_height none c5Dom false "*" _ (by decide)).1⟩

/-! ### C6 — fault isolation of handlers -/

/-- C6, counterexample: a throwing consumer callback on the parent's
built-in `resize` fast path is invoked outside the dispatch `try/catch`,
so its exception escapes `handleMessage` uncaught; likewise, a child
receiving a message event whose data is `null` throws a `TypeError` in
the destructuring before any dispatch.  Both escape flags are true,
falsifying "no inbound message event causes an internal fault to escape
the channel uncaught". -/
theorem C6_counterexample :
    (parentHandleMessage c6Parent c6Event).2.2 = true ∧
    (childHandleMessage c6G 0 { origin := "o", data := .nullData }).2.2 = true := by
  exact ⟨rfl, rfl⟩

/-- C6, amended: exceptions from handlers registered in the generic
`type → callback` table are caught at the dispatch boundary on both
sides — the agent state (including the handler table and the installed
listener) is unchanged and no exception escapes, even when the handler
throws — so subsequent messages are still delivered.  Not covered by the
wrapping are the parent's built-in `onResize`/`onScroll` fast-path
callbacks and the child's destructuring of a null message payload, whose
faults do escape. -/
theorem C6_handler_fault_isolated :
    (∀ (p : ParentState) (t : String) (h : PHandler) (payload : Payload) (origin : String),
      lookupTab p.handlers t = some (.user h) →
      t ≠ "" → t ≠ "resize" → t ≠ "scroll" →
      parentHandleMessage p { source := p.iframeSrc, origin := origin, data := .msg t payload }
        = (p, [.user h.id payload], false))
    ∧ (∀ (g : ChildGlobal) (iid : Nat) (inst : ChildInst) (t : String) (h : CHandler)
        (payload : Payload) (origin : String),
      findInst g iid = some inst →
      (inst.options.targetOrigin = "*" ∨ origin = inst.options.targetOrigin) →
      lookupTab inst.handlers t = some h →
      childHandleMessage g iid { origin := origin, data := .msg (some t) payload }
        = (g, [(h.id, payload)], false)) := by
  constructor
  · intro p t h payload origin hlk h0 h1 h2
    unfold parentHandleMessage
    simp [h0, h1, h2, hlk]
  · intro g iid inst t h payload origin hfind horig hlk
    unfold childHandleMessage
    have hpass : ¬ (inst.options.targetOrigin ≠ "*" ∧ origin ≠ inst.options.targetOrigin) := by
      rcases horig with h' | h' <;> simp [h']
    simp [hfind, hpass, hlk]

theorem C6_handler_fault_isolated_witness :
    lookupTab c6ParentTab.handlers "cfg" = some (.user { id := 1, throws := true }) ∧
    findInst c6GTab 0 = some c6GTabInst ∧
    lookupTab c6GTabInst.handlers "cfg" = some { id := 2, throws := true } ∧
    parentHandleMessage c6ParentTab
        { source := c6ParentTab.iframeSrc, origin := "o", data := .msg "cfg" [("k", 1)] }
      = (c6ParentTab, [.user 1 [("k", 1)]], false) ∧
    childHandleMessage c6GTab 0 { origin := "o", data := .msg (some "cfg") [("k", 1)] }
      = (c6GTab, [(2, [("k", 1)])], false) :=
  ⟨by decide, by decide, by decide,
   C6_handler_fault_isolated.1 c6ParentTab "cfg" { id := 1, throws := true } [("k", 1)] "o"
     (by decide) (by decide) (by decide) (by decide),
   C6_handler_fault_isolated.2 c6GTab 0 c6GTabInst "cfg" { id := 2, throws := true } [("k", 1)] "o"
     (by decide) (Or.inl (by decide)) (by decide)⟩

/-! ### C7 — destroy is idempotent and final -/

theorem childDestroy_of_find_none (g : ChildGlobal) (iid : Nat)
    (hfind : findInst g iid = none) :
    childDestroy g iid = { g with instancePtr := none } := by
  unfold childDestroy
  rw [hfind]

theorem childDestroy_of_find_some (g : ChildGlobal) (iid : Nat) (inst : ChildInst)
    (hfind : findInst g iid = some inst) :
    childDestroy g iid = destroyedG g iid inst := by
  unfold childDestroy
  rw [hfind]
  by_cases h1 : inst.options.resize ∧ inst.observer <;>
    by_cases h2 : inst.options.scroll <;>
      simp [h1, h2, updateInst, destroyedG]

theorem filter_ne_idem (l : List Nat) (iid : Nat) :
    (l.filter (fun j => j ≠ iid)).filter (fun j => j ≠ iid)
      = l.filter (fun j => j ≠ iid) := by
  rw [List.filter_filter]
  simp

theorem map_clear_idem (l : List ChildInst) (iid : Nat) :
    ((l.map (fun i => if i.id = iid then clearInstFields i else i)).map
        (fun i => if i.id = iid then clearInstFields i else i))
      = l.map (fun i => if i.id = iid then clearInstFields i else i) := by
  rw [List.map_map]
  apply List.map_congr_left
  intro i _
  by_cases h : i.id = iid
  · simp [Function.comp, h, clearInstFields]
  · simp [Function.comp, h]

theorem childDestroy_instancePtr (g : ChildGlobal) (iid : Nat) :
    (childDestroy g iid).instancePtr = none := by
  unfold childDestroy
  split
  · rfl
  · rfl

theorem childDestroy_not_mem_messageListeners (g : ChildGlobal) (iid : Nat)
    (inst : ChildInst) (hfind : findInst g iid = some inst) :
    iid ∉ (childDestroy g iid).messageListeners := by
  rw [childDestroy_of_find_some g iid inst hfind]
  simp [destroyedG, List.mem_filter]

theorem childHandleMessage_fst (g : ChildGlobal) (iid : Nat) (e : CEvent) :
    (childHandleMessage g iid e).1 = g := by
  unfold childHandleMessage
  repeat' split
  all_goals rfl

theorem childHandleMessage_calls_of_handlers_nil (g : ChildGlobal) (iid : Nat)
    (e : CEvent) (inst : ChildInst) (hfind : findInst g iid = some inst)
    (hh : inst.handlers = []) :
    (childHandleMessage g iid e).2.1 = [] := by
  unfold childHandleMessage
  simp only [hfind]
  by_cases horg : inst.options.targetOrigin ≠ "*" ∧ e.origin ≠ inst.options.targetOrigin
  · rw [if_pos horg]
  · rw [if_neg horg]
    cases e.data with
    | nullData => rfl
    | msg t payload =>
      cases t with
      | none => rfl
      | some ty => simp [hh, lookupTab]

/-- Every tagged call produced by a delivery comes from running
`handleMessage` of the tagging listener on the (unchanged) world. -/
theorem childDeliver_calls_from (g : ChildGlobal) (e : CEvent) :
    ∀ c ∈ (childDeliver g e).2.1, c.2 ∈ (childHandleMessage g c.1 e).2.1 := by
  unfold childDeliver
  have main : ∀ (l : List Nat) (acc : ChildGlobal × List (Nat × Nat × Payload) × Bool),
      acc.1 = g →
      (∀ c ∈ acc.2.1, c.2 ∈ (childHandleMessage g c.1 e).2.1) →
      ∀ c ∈ (l.foldl (deliverStep e) acc).2.1, c.2 ∈ (childHandleMessage g c.1 e).2.1 := by
    intro l
    induction l with
    | nil => intro acc _ h2 c hc; exact h2 c hc
    | cons x xs ih =>
      intro acc h1 h2 c hc
      refine ih (deliverStep e acc x) ?_ ?_ c hc
      · show (childHandleMessage acc.1 x e).1 = g
        rw [h1, childHandleMessage_fst]
      · intro c' hc'
        rcases List.mem_append.mp hc' with h | h
        · exact h2 c' h
        · rcases List.mem_map.mp h with ⟨cc, hcc, rfl⟩
          rw [h1] at hcc
          exact hcc
  intro c hc
  exact main g.messageListeners (g, [], false) rfl (by simp) c hc

/-- C7: `destroy()` is idempotent on both sides (a second call is a
no-op), and after it every simulated triggering event — layout-change
trigger, scroll event, inbound message — produces no emission and no
handler dispatch for the destroyed instance; the destroyed parent's
listener is gone and delivery is a no-op. -/
theorem C7_destroy_idempotent :
    (∀ (g : ChildGlobal) (iid : Nat),
      childDestroy (childDestroy g iid) iid = childDestroy g iid)
    ∧ (∀ p : ParentState, parentDestroy (parentDestroy p) = parentDestroy p)
    ∧ (∀ (g : ChildGlobal) (iid : Nat) (dom : Dom),
      resizeTrigger (childDestroy g iid) dom = childDestroy g iid ∧
      scrollTrigger (childDestroy g iid) dom = childDestroy g iid)
    ∧ (∀ (g : ChildGlobal) (iid : Nat) (e : CEvent),
      ((childDeliver (childDestroy g iid) e).2.1).all (fun c => c.1 != iid) = true)
    ∧ (∀ (p : ParentState) (e : PEvent),
      parentDeliver (parentDestroy p) e = (parentDestroy p, [], false)) := by
  refine ⟨?_, ?_, ?_, ?_, ?_⟩
  · intro g iid
    cases hfind : findInst g iid with
    | none =>
      rw [childDestroy_of_find_none g iid hfind]
      have hfind2 : findInst { g with instancePtr := none } iid = none := hfind
      rw [childDestroy_of_find_none _ _ hfind2]
    | some inst =>
      rw [childDestroy_of_find_some g iid inst hfind]
      have hfind2 : findInst (destroyedG g iid inst) iid = some (clearInstFields inst) := by
        show (g.instances.map (fun i => if i.id = iid then clearInstFields i else i)).find?
            (fun i => i.id = iid) = some (clearInstFields inst)
        rw [find_map_update g.instances iid clearInstFields (fun i => rfl)]
        rw [show g.instances.find? (fun i => i.id = iid) = some inst from hfind]
        rfl
      rw [childDestroy_of_find_some _ _ _ hfind2]
      by_cases h2 : inst.options.scroll <;>
      · simp [destroyedG, clearInstFields, map_clear_idem, filter_ne_idem, h2]
        intro a _ ha
        by_cases haid : a.id = iid
        · simp [haid]
        · simp [haid] at ha
  · intro p
    rfl
  · intro g iid dom
    exact ⟨resizeTrigger_of_ptr_none _ _ (childDestroy_instancePtr g iid),
           scrollTrigger_of_ptr_none _ _ (childDestroy_instancePtr g iid)⟩
  · intro g iid e
    rw [List.all_eq_true]
    intro c hc
    rw [bne_iff_ne]
    intro hEq
    have hcm := childDeliver_calls_from (childDestroy g iid) e c hc
    rw [hEq] at hcm
    cases hfind : findInst g iid with
    | none =>
      have hfind2 : findInst (childDestroy g iid) iid = none := by
        rw [childDestroy_of_find_none g iid hfind]
        exact hfind
      have hempty : (childHandleMessage (childDestroy g iid) iid e).2.1 = [] := by
        unfold childHandleMessage
        rw [hfind2]
      rw [hempty] at hcm
      simp at hcm
    | some inst =>
      have hfind2 : findInst (childDestroy g iid) iid = some (clearInstFields inst) := by
        rw [childDestroy_of_find_some g iid inst hfind]
        show (g.instances.map (fun i => if i.id = iid then clearInstFields i else i)).find?
            (fun i => i.id = iid) = some (clearInstFields inst)
        rw [find_map_update g.instances iid clearInstFields (fun i => rfl)]
        rw [show g.instances.find? (fun i => i.id = iid) = some inst from hfind]
        rfl
      have hempty := childHandleMessage_calls_of_handlers_nil (childDestroy g iid) iid e
        (clearInstFields inst) hfind2 rfl
      rw [hempty] at hcm
      simp at hcm
  · intro p e
    unfold parentDeliver parentDestroy
    simp

/-- Constructing the first child agent from the pristine world, written
as one record. -/
theorem childCreate_emptyG (newId : Nat) (o : ChildOptionsIn) :
    childCreate emptyG newId o true =
      { instances := [{ id := newId, options := mergeChildOptions o,
                        observer := (mergeChildOptions o).resize }],
        instancePtr := some newId,
        resizeObservers := if (mergeChildOptions o).resize then [newId] else [],
        scrollListeners := if (mergeChildOptions o).scroll then [newId] else [],
        messageListeners := [newId],
        sent := [{ type := "init", payload := [],
                   targetOrigin := (mergeChildOptions o).targetOrigin }] } := by
  unfold childCreate
  simp [emptyG, childSendMessage, findInst, List.find?]

/-! ### C8 — the ready payload ignores initData -/

/-- C8: the deferred `ready` message always carries the empty object
literal `{}` — the scheduled closure is `this.sendMessage('ready', {})`
and `options.initData`, although declared among the defaults and merged,
is never read — so for a child constructed with `initData = {a: 1}` the
ready payload is `[]`, not `[("a", 1)]`. -/
theorem C8_ready_payload_ignores_initData :
    (∀ o : RChildOptionsIn,
      rChildRunTimeout (rChildCreate o)
        = [{ type := "ready", payload := [],
             targetOrigin := (mergeRChildOptions o).targetOrigin }])
    ∧ (mergeRChildOptions { initData := some [("a", 1)] }).initData = [("a", 1)]
    ∧ rChildRunTimeout (rChildCreate { initData := some [("a", 1)] })
        = [{ type := "ready", payload := [], targetOrigin := "*" }]
    ∧ ([] : Payload) ≠ [("a", 1)] := by
  refine ⟨fun o => rfl, rfl, rfl, by decide⟩

/-! ### C9 — chainable returns -/

/-- C9, counterexample: the parent's `sendMessage` has no `return this` on
any path — it returns `undefined` — so
"sendMessage ... return the agent instance itself" fails on the parent
side. -/
theorem C9_counterexample :
    (parentSendMessage c9Parent "a" []).2 = Ret.undef ∧
    (parentSendMessage c9Parent "a" []).2 ≠ Ret.self := by
  exact ⟨rfl, by decide⟩

/-- C9, amended: `onMessage` returns the agent on both sides, so chained
registrations such as `agent.onMessage('a',f).onMessage('b',g)` register
both handlers; the child's `sendMessage` also returns the agent, but the
parent's `sendMessage` returns `undefined`. -/
theorem C9_chaining :
    (∀ (p : ParentState) (f h : PHandler),
      (parentOnMessage p "a" f).2 = .self ∧
      (parentOnMessage (parentOnMessage p "a" f).1 "b" h).2 = .self ∧
      lookupTab ((parentOnMessage (parentOnMessage p "a" f).1 "b" h).1).handlers "a"
        = some (.user f) ∧
      lookupTab ((parentOnMessage (parentOnMessage p "a" f).1 "b" h).1).handlers "b"
        = some (.user h))
    ∧ (∀ (o : ChildOptionsIn) (f h : CHandler),
      (childOnMessage (childCreate emptyG 0 o true) 0 "a" f).2 = .self ∧
      (childOnMessage (childOnMessage (childCreate emptyG 0 o true) 0 "a" f).1 0 "b" h).2
        = .self ∧
      ∃ inst : ChildInst,
        findInst ((childOnMessage
            (childOnMessage (childCreate emptyG 0 o true) 0 "a" f).1 0 "b" h).1) 0
          = some inst ∧
        lookupTab inst.handlers "a" = some f ∧
        lookupTab inst.handlers "b" = some h)
    ∧ childSendMessageRet = .self
    ∧ (∀ (p : ParentState) (t : String) (d : Payload),
        (parentSendMessage p t d).2 = .undef) := by
  refine ⟨?_, ?_, rfl, ?_⟩
  · intro p f h
    refine ⟨rfl, rfl, ?_, ?_⟩
    · rw [show ((parentOnMessage (parentOnMessage p "a" f).1 "b" h).1).handlers
          = setTab (setTab p.handlers "a" (.user f)) "b" (.user h) from rfl]
      rw [lookupTab_setTab_other _ _ _ _ (by decide), lookupTab_setTab_self]
    · rw [show ((parentOnMessage (parentOnMessage p "a" f).1 "b" h).1).handlers
          = setTab (setTab p.handlers "a" (.user f)) "b" (.user h) from rfl]
      rw [lookupTab_setTab_self]
  · intro o f h
    have hptr : ((childCreate emptyG 0 o true).instancePtr).isSome := by
      rw [childCreate_emptyG]
      rfl
    have hfind0 : findInst (childCreate emptyG 0 o true) 0
        = some { id := 0, options := mergeChildOptions o,
                 observer := (mergeChildOptions o).resize } := by
      rw [childCreate_emptyG]
      unfold findInst
      simp [List.find?]
    have h1 : (childOnMessage (childCreate emptyG 0 o true) 0 "a" f).1
        = updateInst (childCreate emptyG 0 o true) 0
            (fun i => { i with handlers := setTab i.handlers "a" f }) := by
      unfold childOnMessage
      rw [if_pos hptr]
    have hptr1 : (updateInst (childCreate emptyG 0 o true) 0
        (fun i => { i with handlers := setTab i.handlers "a" f })).instancePtr.isSome := by
      rw [updateInst_instancePtr]
      exact hptr
    have h2 : (childOnMessage (updateInst (childCreate emptyG 0 o true) 0
          (fun i => { i with handlers := setTab i.handlers "a" f })) 0 "b" h).1
        = updateInst (updateInst (childCreate emptyG 0 o true) 0
            (fun i => { i with handlers := setTab i.handlers "a" f })) 0
            (fun i => { i with handlers := setTab i.handlers "b" h }) := by
      unfold childOnMessage
      rw [if_pos hptr1]
    refine ⟨?_, ?_, ?_⟩
    · unfold childOnMessage
      rw [if_pos hptr]
    · unfold childOnMessage
      split <;> rfl
    · refine ⟨{ id := 0, options := mergeChildOptions o,
                observer := (mergeChildOptions o).resize,
                handlers := setTab (setTab [] "a" f) "b" h }, ?_, ?_, ?_⟩
      · rw [h1, h2]
        rw [findInst_updateInst_self _ 0
          (fun i => { i with handlers := setTab i.handlers "b" h }) (fun i => rfl)]
        rw [findInst_updateInst_self _ 0
          (fun i => { i with handlers := setTab i.handlers "a" f }) (fun i => rfl)]
        rw [hfind0]
        rfl
      · rw [lookupTab_setTab_other _ _ _ _ (by decide), lookupTab_setTab_self]
      · rw [lookupTab_setTab_self]
  · intro p t d
    unfold parentSendMessage
    split
    · rfl
    · split <;> rfl

/-! ### C10 — stale destroy disables the replacement agent -/

/-- C10: `destroy()` on any child instance unconditionally resets the
class-wide static pointer, and while the pointer is null, `sendMessage`,
`onResize` and `onScroll` on every instance refuse to emit.  In
particular, after agent 1 replaces agent 0, destroying the stale agent 0
nulls the pointer even though agent 1 is still registered (its observer
and message listener remain attached), and agent 1's `sendMessage`,
`onResize` and `onScroll` all become no-ops. -/
theorem C10_stale_destroy_disables :
    (∀ (g : ChildGlobal) (iid : Nat), (childDestroy g iid).instancePtr = none)
    ∧ (∀ (g : ChildGlobal) (iid : Nat) (t : String) (d : Payload) (dom : Dom)
        (force : Bool),
      g.instancePtr = none →
      childSendMessage g iid t d = g ∧ childOnResize g iid dom force = g ∧
      childOnScroll g iid dom = g)
    ∧ (∀ (t : String) (d : Payload) (dom : Dom) (force : Bool),
      1 ∈ c10G.resizeObservers ∧ 1 ∈ c10G.messageListeners ∧
      childSendMessage c10G 1 t d = c10G ∧ childOnResize c10G 1 dom force = c10G ∧
      childOnScroll c10G 1 dom = c10G) := by
  have hnone : ∀ (g : ChildGlobal) (iid : Nat) (t : String) (d : Payload)
      (dom : Dom) (force : Bool),
      g.instancePtr = none →
      childSendMessage g iid t d = g ∧ childOnResize g iid dom force = g ∧
      childOnScroll g iid dom = g := by
    intro g iid t d dom force hptr
    exact ⟨childSendMessage_of_none g iid t d hptr,
           childOnResize_of_ptr_none g iid dom force hptr,
           childOnScroll_of_ptr_none g iid dom hptr⟩
  refine ⟨childDestroy_instancePtr, hnone, ?_⟩
  intro t d dom force
  have hptr : c10G.instancePtr = none := childDestroy_instancePtr _ 0
  have hmem : 1 ∈ c10G.resizeObservers ∧ 1 ∈ c10G.messageListeners := by
    constructor <;> decide
  exact ⟨hmem.1, hmem.2, (hnone c10G 1 t d dom force hptr).1,
         (hnone c10G 1 t d dom force hptr).2.1, (hnone c10G 1 t d dom force hptr).2.2⟩

theorem C10_stale_destroy_disables_witness :
    c10GNull.instancePtr = none ∧
    (childSendMessage c10GNull 0 "x" [] = c10GNull ∧
     childOnResize c10GNull 0 c3Dom false = c10GNull ∧
     childOnScroll c10GNull 0 c3Dom = c10GNull) :=
  ⟨by decide,
   C10_stale_destroy_disables.2.1 c10GNull 0 "x" [] c3Dom false (by decide)⟩

end IFR
